import Mathlib

/-!
Shallow embedding of the zero-coupon bond pricer
(`src/main.py` of qc-coupon-bond-price-calculation-v4).

Modelling conventions:
* Python floats are modelled as real numbers; `numpy` arrays become
  functions `ℕ → ℝ` (a vector indexed by position) or `ℕ → ℕ → ℝ`
  (a matrix indexed by row and column).
* The scrambled Sobol / inverse-normal sampler is an external library
  call (`scipy`); its output, the matrix of standard-normal shocks, is
  passed as an explicit parameter `shocks : ℕ → ℕ → ℝ`
  (`shocks p t` is `normal_samples[p, t]`).
* Python dictionaries become partial maps `String → Option ℝ`
  (respectively `String → Option ℕ` for the solver parameters); a raised
  exception becomes an `Except`/`Option` error value.
* `round(x, 10)` is modelled as exact decimal rounding to 10 places over
  ℝ (`round10`); Python breaks exact ties to even while Mathlib's
  `round` breaks them upwards, but no claim below depends on tie values.
-/

/-- Mean reversion speed (module constant `KAPPA = 0.1`). -/
noncomputable def KAPPA : ℝ := 0.1

/-- Long-term mean interest rate (module constant `THETA = 0.03`). -/
noncomputable def THETA : ℝ := 0.03

/-- Hard cap on the simulation count (module constant `MAX_SIMULATIONS = 2**16`). -/
def MAX_SIMULATIONS : ℕ := 2 ^ 16

/-- Embeds `next_power_of_2(n) = min(2 ** int(np.ceil(np.log2(n))), MAX_SIMULATIONS)`.
For `n ≥ 1` the value `int(ceil(log2 n))` is `Nat.clog 2 n` (the float
computation is exact on powers of two and has ample precision margin
elsewhere, and the `min` cap absorbs any rounding for huge `n`).
For `n = 0`, `np.log2 0 = -inf` and `int(-inf)` raises `OverflowError`,
modelled as `none`. -/
def next_power_of_2 (n : ℕ) : Option ℕ :=
  if n = 0 then none
  else some (min (2 ^ Nat.clog 2 n) MAX_SIMULATIONS)

noncomputable section

/-- Exact decimal rounding to 10 places, modelling `round(x, 10)`. -/
def round10 (x : ℝ) : ℝ := (round (x * 10 ^ 10) : ℤ) / 10 ^ 10

/-- `np.mean` of the first `n` entries of a vector. -/
def np_mean (n : ℕ) (x : ℕ → ℝ) : ℝ := (∑ p in Finset.range n, x p) / n

/-- `np.var` (population variance, `ddof = 0`) of the first `n` entries:
the mean of the squared deviations from the mean. -/
def np_var (n : ℕ) (x : ℕ → ℝ) : ℝ :=
  np_mean n (fun p => (x p - np_mean n x) ^ 2)

/-- Embeds `vasicek_bond_price(T, r0, sigma, kappa, theta)`:
the closed-form Vasicek zero-coupon bond price `A(T) * exp(-B(T) * r0)`. -/
def vasicek_bond_price (T r0 sigma kappa theta : ℝ) : ℝ :=
  let B_T := (1 - Real.exp (-kappa * T)) / kappa
  let A_T := Real.exp ((theta - sigma ^ 2 / (2 * kappa ^ 2)) * (B_T - T)
    - sigma ^ 2 * B_T ^ 2 / (4 * kappa))
  A_T * Real.exp (-B_T * r0)

/-- `num_steps = int(round(total_time / time_step))`.  Mathlib `round`
breaks exact halves upwards where Python breaks them to even; no claim
below evaluates at an exact tie. -/
def numSteps (total_time time_step : ℝ) : ℕ := (round (total_time / time_step)).toNat

/-- `time_grid = np.linspace(0, total_time, num_steps + 1)`:
grid point `j` is `total_time * j / num_steps`. -/
def time_grid (total_time : ℝ) (num_steps : ℕ) : ℕ → ℝ :=
  fun j => total_time * j / num_steps

/-- One row of `rate_paths`: the loop
`for step in range(1, num_steps + 1):`
`  dW = normal_samples[:, step - 1] * np.sqrt(time_step)`
`  dr = KAPPA * (THETA - rate_paths[:, step - 1]) * time_step + volatility * dW`
`  rate_paths[:, step] = rate_paths[:, step - 1] + dr`
specialized to a single path, with `rate_paths` initialized to
`initial_rate` everywhere by `np.full`.  The function is total in the
step index; the code only reads columns `0 .. num_steps`. -/
def rate_path (shock : ℕ → ℝ) (initial_rate volatility time_step : ℝ) : ℕ → ℝ
  | 0 => initial_rate
  | step + 1 =>
    let prev := rate_path shock initial_rate volatility time_step step
    let dW := shock step * Real.sqrt time_step
    let dr := KAPPA * (THETA - prev) * time_step + volatility * dW
    prev + dr

/-- Embeds `simulate_short_rate_quasi_mc`, returning `(rate_paths, time_grid)`.
The Sobol/normal sampler output is the explicit `shocks` parameter;
`num_simulations` only fixes the number of rows the callers read, which
the functional embedding leaves implicit. -/
def simulate_short_rate_quasi_mc (shocks : ℕ → ℕ → ℝ)
    (total_time initial_rate volatility : ℝ) (num_simulations : ℕ)
    (time_step : ℝ) : (ℕ → ℕ → ℝ) × (ℕ → ℝ) :=
  (fun p => rate_path (shocks p) initial_rate volatility time_step,
   time_grid total_time (numSteps total_time time_step))

/-- Embeds `compute_discount_factors`:
`dt = np.diff(time_grid)`, `integral = np.cumsum(rate_paths[:, :-1] * dt, axis=1)`,
`discount_factors = np.exp(-integral)`.  Column `k` of the cumulative sum
is `∑ j ≤ k, rate_paths[p, j] * (time_grid[j+1] - time_grid[j])`. -/
def compute_discount_factors (rate_paths : ℕ → ℕ → ℝ) (tg : ℕ → ℝ) :
    ℕ → ℕ → ℝ :=
  fun p k =>
    Real.exp (-(∑ j in Finset.range (k + 1), rate_paths p j * (tg (j + 1) - tg j)))

/-- Embeds `monte_carlo_bond_price`, returning the pair
`(round(adjusted_mc_estimate, 10), round(variance, 10))`.
`final_discount_factors = discount_factors[:, -1]` is column
`num_steps - 1` (the discount-factor matrix has `num_steps` columns). -/
def monte_carlo_bond_price (shocks : ℕ → ℕ → ℝ)
    (total_time initial_rate volatility : ℝ) (num_simulations : ℕ)
    (time_step : ℝ) : ℝ × ℝ :=
  let sim := simulate_short_rate_quasi_mc shocks total_time initial_rate volatility
    num_simulations time_step
  let discount_factors := compute_discount_factors sim.1 sim.2
  let num_steps := numSteps total_time time_step
  let final_discount_factors := fun p => discount_factors p (num_steps - 1)
  let mc_estimate := np_mean num_simulations final_discount_factors
  let closed_form_price := vasicek_bond_price total_time initial_rate volatility KAPPA THETA
  let adjusted_mc_estimate :=
    mc_estimate - (np_mean num_simulations final_discount_factors - closed_form_price)
  let variance := np_var num_simulations final_discount_factors
  (round10 adjusted_mc_estimate, round10 variance)

end

/-- The record returned by `run`: `{"bond_price": ..., "variance": ...}`. -/
structure Result where
  bond_price : ℝ
  variance : ℝ

/-- The exceptions `run` can raise:
`keyError k` models Python `KeyError: k` from `input_data[k]`;
`attributeError` models `AttributeError` from `None.get(...)`;
`overflowError` models `OverflowError` from `next_power_of_2(0)`. -/
inductive RunError where
  | keyError (key : String) : RunError
  | attributeError : RunError
  | overflowError : RunError

noncomputable section

/-- Embeds `run(input_data, solver_params=None, extra_arguments=None)`.
The unused `extra_arguments` parameter is omitted.  Dictionary accesses
`input_data[k]` fail with `KeyError k` when the key is absent;
`solver_params.get("NumberOfSimulations", 10000)` fails with
`AttributeError` when `solver_params` is `None` (the declared default). -/
def run (shocks : ℕ → ℕ → ℝ) (input_data : String → Option ℝ)
    (solver_params : Option (String → Option ℕ)) : Except RunError Result :=
  match input_data ("Initial Interest Rate") with
  | none => Except.error (RunError.keyError ("Initial Interest Rate"))
  | some initial_rate =>
    match input_data ("Volatility") with
    | none => Except.error (RunError.keyError ("Volatility"))
    | some volatility =>
      match input_data ("Maturity Time") with
      | none => Except.error (RunError.keyError ("Maturity Time"))
      | some maturity_months =>
        let bond_maturity := maturity_months / 12
        match solver_params with
        | none => Except.error RunError.attributeError
        | some sp =>
          let original_num_simulations := (sp ("NumberOfSimulations")).getD 10000
          match next_power_of_2 original_num_simulations with
          | none => Except.error RunError.overflowError
          | some num_simulations =>
            let r := monte_carlo_bond_price shocks bond_maturity initial_rate
              volatility num_simulations 0.01
            Except.ok { bond_price := r.1, variance := r.2 }

end

/-! ## Theorems -/

/-- Claim C2: for all positive integers n ≤ 65536, `next_power_of_2 n`
returns the smallest power of two ≥ n; for every integer n > 65536 it
returns exactly 65536 (requests above the cap are truncated, not rejected). -/
theorem next_power_of_2_correct (n : ℕ) :
    (1 ≤ n → n ≤ 65536 →
      next_power_of_2 n = some (2 ^ Nat.clog 2 n) ∧
      n ≤ 2 ^ Nat.clog 2 n ∧
      (∀ j, n ≤ 2 ^ j → 2 ^ Nat.clog 2 n ≤ 2 ^ j)) ∧
    (65536 < n → next_power_of_2 n = some 65536) := by
  constructor
  · intro h1 h2
    have hb : (1 : ℕ) < 2 := one_lt_two
    have hpow : n ≤ 2 ^ 16 := by norm_num; omega
    have hclog : Nat.clog 2 n ≤ 16 := (Nat.le_pow_iff_clog_le hb).mp hpow
    have hle : 2 ^ Nat.clog 2 n ≤ MAX_SIMULATIONS :=
      Nat.pow_le_pow_right (le_of_lt hb) hclog
    refine ⟨?_, Nat.le_pow_clog hb n, ?_⟩
    · have hn0 : n ≠ 0 := Nat.one_le_iff_ne_zero.mp h1
      simp [next_power_of_2, hn0, min_eq_left hle]
    · intro j hj
      exact Nat.pow_le_pow_right (le_of_lt hb) ((Nat.le_pow_iff_clog_le hb).mp hj)
  · intro h
    have hn0 : n ≠ 0 := by omega
    have h16 : ¬ Nat.clog 2 n ≤ 16 := by
      intro hc
      have : n ≤ 2 ^ 16 := (Nat.le_pow_iff_clog_le one_lt_two).mpr hc
      norm_num at this
      omega
    have hcap : MAX_SIMULATIONS ≤ 2 ^ Nat.clog 2 n :=
      Nat.pow_le_pow_right (by norm_num) (by omega)
    have : min (2 ^ Nat.clog 2 n) MAX_SIMULATIONS = 65536 := by
      rw [min_eq_right hcap]
      norm_num [MAX_SIMULATIONS]
    simp [next_power_of_2, hn0, this]

/-- Witness for C2 at n = 5 (smallest power of two ≥ 5 is 8 = 2 ^ clog 2 5)
and at n = 100000 (capped to 65536). -/
theorem next_power_of_2_correct_witness :
    ((1 : ℕ) ≤ 5 ∧ (5 : ℕ) ≤ 65536 ∧ next_power_of_2 5 = some (2 ^ Nat.clog 2 5)) ∧
    ((65536 : ℕ) < 100000 ∧ next_power_of_2 100000 = some 65536) :=
  ⟨⟨by norm_num, by norm_num,
      ((next_power_of_2_correct 5).1 (by norm_num) (by norm_num)).1⟩,
   ⟨by norm_num, (next_power_of_2_correct 100000).2 (by norm_num)⟩⟩

/-- Claim C3 (evaluation at the failing input): `next_power_of_2 0`
raises (OverflowError from `int(np.ceil(np.log2(0))) = int(-inf)`,
modelled as `none`) instead of returning a value ≥ 1, while
`next_power_of_2 1` does return 1. -/
theorem next_power_of_2_zero_overflows :
    next_power_of_2 0 = none ∧ next_power_of_2 1 = some 1 := by
  refine ⟨rfl, ?_⟩
  simp [next_power_of_2, Nat.clog_one_right, MAX_SIMULATIONS]

/-- Claim C6: every path of every generated ensemble has value exactly
`r0` at column 0 (the per-step loop writes only columns ≥ 1). -/
theorem simulate_initial_condition (shocks : ℕ → ℕ → ℝ) (T r0 σ : ℝ)
    (n : ℕ) (dt : ℝ) (p : ℕ) :
    (simulate_short_rate_quasi_mc shocks T r0 σ n dt).1 p 0 = r0 := rfl

/-- Claim C4: every path of the ensemble satisfies the Euler recurrence
rate[t] = rate[t-1] + κ(θ - rate[t-1])·dt + σ·shock[t]·sqrt(dt)
(with κ = 0.1, θ = 0.03, and shock[t] the step-t shock, stored at
column t-1 of the shock matrix) at each step 1 ≤ t ≤ num_steps, and the
ensemble is deterministic in the shock matrix. -/
theorem simulate_recurrence (shocks : ℕ → ℕ → ℝ) (T r0 σ : ℝ) (n : ℕ)
    (dt : ℝ) (p t : ℕ) (h1 : 1 ≤ t) (h2 : t ≤ numSteps T dt) :
    ((simulate_short_rate_quasi_mc shocks T r0 σ n dt).1 p t
      = (simulate_short_rate_quasi_mc shocks T r0 σ n dt).1 p (t - 1)
        + 0.1 * (0.03 - (simulate_short_rate_quasi_mc shocks T r0 σ n dt).1 p (t - 1)) * dt
        + σ * shocks p (t - 1) * Real.sqrt dt)
    ∧ ∀ shocks2 : ℕ → ℕ → ℝ, (∀ q j, shocks q j = shocks2 q j) →
        (simulate_short_rate_quasi_mc shocks T r0 σ n dt).1
          = (simulate_short_rate_quasi_mc shocks2 T r0 σ n dt).1 := by
  constructor
  · obtain ⟨s, rfl⟩ : ∃ s, t = s + 1 := ⟨t - 1, (Nat.succ_pred_eq_of_pos h1).symm⟩
    simp only [simulate_short_rate_quasi_mc, rate_path, Nat.add_sub_cancel, KAPPA, THETA]
    ring
  · intro shocks2 hsh
    have heq : shocks = shocks2 := funext fun q => funext fun j => hsh q j
    rw [heq]

/-- Witness for C4 at t = 1 with T = 1, dt = 1 (num_steps = 1) and a
zero shock matrix. -/
theorem simulate_recurrence_witness :
    (1 ≤ 1 ∧ 1 ≤ numSteps 1 1) ∧
    (simulate_short_rate_quasi_mc (fun _ _ => (0 : ℝ)) 1 0.03 0.01 1 1).1 0 1
      = (simulate_short_rate_quasi_mc (fun _ _ => (0 : ℝ)) 1 0.03 0.01 1 1).1 0 0
        + 0.1 * (0.03 - (simulate_short_rate_quasi_mc (fun _ _ => (0 : ℝ)) 1 0.03 0.01 1 1).1 0 0) * 1
        + 0.01 * (0 : ℝ) * Real.sqrt 1 := by
  have hns : (1 : ℕ) ≤ numSteps 1 1 := by
    simp [numSteps]
  exact ⟨⟨le_refl 1, hns⟩,
    (simulate_recurrence (fun _ _ => (0 : ℝ)) 1 0.03 0.01 1 1 0 1 (le_refl 1) hns).1⟩

/-- Claim C5: for every path ensemble and time grid,
`compute_discount_factors` gives at column k the exponential of the
negated left-Riemann cumulative integral over grid points 0..k, and at
the terminal column (num_steps - 1, the one consumed downstream) it
equals exp(-∑_{j<num_steps} rate[j]·(grid[j+1]-grid[j])). -/
theorem compute_discount_factors_correct (rate_paths : ℕ → ℕ → ℝ)
    (tg : ℕ → ℝ) (p k ns : ℕ) (h : 1 ≤ ns) :
    compute_discount_factors rate_paths tg p k
      = Real.exp (-(∑ j in Finset.range (k + 1), rate_paths p j * (tg (j + 1) - tg j)))
    ∧ compute_discount_factors rate_paths tg p (ns - 1)
      = Real.exp (-(∑ j in Finset.range ns, rate_paths p j * (tg (j + 1) - tg j))) := by
  refine ⟨rfl, ?_⟩
  have hns : ns - 1 + 1 = ns := Nat.succ_pred_eq_of_pos h
  simp only [compute_discount_factors, hns]

/-- Witness for C5 with a zero ensemble, zero grid, k = 0 and num_steps = 1. -/
theorem compute_discount_factors_correct_witness :
    (1 : ℕ) ≤ 1 ∧
    compute_discount_factors (fun _ _ => (0 : ℝ)) (fun _ => (0 : ℝ)) 0 (1 - 1)
      = Real.exp (-(∑ j in Finset.range 1, (0 : ℝ) * ((0 : ℝ) - (0 : ℝ)))) :=
  ⟨le_refl 1,
    (compute_discount_factors_correct (fun _ _ => (0 : ℝ)) (fun _ => (0 : ℝ)) 0 0 1
      (le_refl 1)).2⟩

/-! ## Helper lemmas and demo inputs shared by several claims -/

lemma monte_carlo_fst (shocks : ℕ → ℕ → ℝ) (T r0 σ : ℝ) (n : ℕ) (dt : ℝ) :
    (monte_carlo_bond_price shocks T r0 σ n dt).1
      = round10 (vasicek_bond_price T r0 σ KAPPA THETA) := by
  simp only [monte_carlo_bond_price]
  congr 1
  ring

lemma run_ok_eq (shocks : ℕ → ℕ → ℝ) (input_data : String → Option ℝ)
    (sp : String → Option ℕ) (r0 σ mt : ℝ) (npow : ℕ)
    (h1 : input_data ("Initial Interest Rate") = some r0)
    (h2 : input_data ("Volatility") = some σ)
    (h3 : input_data ("Maturity Time") = some mt)
    (h4 : next_power_of_2 ((sp ("NumberOfSimulations")).getD 10000) = some npow) :
    run shocks input_data (some sp)
      = Except.ok
          { bond_price := (monte_carlo_bond_price shocks (mt / 12) r0 σ npow 0.01).1,
            variance := (monte_carlo_bond_price shocks (mt / 12) r0 σ npow 0.01).2 } := by
  simp only [run, h1, h2, h3, h4]

lemma np_var_nonneg (n : ℕ) (x : ℕ → ℝ) : 0 ≤ np_var n x := by
  unfold np_var np_mean
  apply div_nonneg
  · exact Finset.sum_nonneg fun p _ => sq_nonneg _
  · exact Nat.cast_nonneg n

lemma round10_nonneg {x : ℝ} (hx : 0 ≤ x) : 0 ≤ round10 x := by
  unfold round10
  apply div_nonneg
  · have hx10 : (0 : ℝ) ≤ x * 10 ^ 10 := by positivity
    have h0 : (0 : ℤ) ≤ round (x * 10 ^ 10) := by
      rw [round_eq]
      apply Int.floor_nonneg.mpr
      linarith
    exact_mod_cast h0
  · norm_num

lemma clog2_10000 : Nat.clog 2 10000 = 14 := by
  have h1 : Nat.clog 2 10000 ≤ 14 :=
    (Nat.le_pow_iff_clog_le one_lt_two).mp (by norm_num)
  have h2 : ¬ Nat.clog 2 10000 ≤ 13 := by
    intro hc
    have := (Nat.le_pow_iff_clog_le one_lt_two).mpr hc
    norm_num at this
  omega

lemma next_power_of_2_10000 : next_power_of_2 10000 = some 16384 := by
  norm_num [next_power_of_2, clog2_10000, MAX_SIMULATIONS]

lemma next_power_of_2_1024 : next_power_of_2 1024 = some 1024 := by
  have hc : Nat.clog 2 1024 = 10 := by
    rw [show (1024 : ℕ) = 2 ^ 10 by norm_num]
    exact Nat.clog_pow 2 10 one_lt_two
  norm_num [next_power_of_2, hc, MAX_SIMULATIONS]

noncomputable section

/-- The scenario record from the spec's test section:
initial rate 0.03, volatility 0.01, maturity 12 months. -/
def demo_input : String → Option ℝ := fun key =>
  if key = "Initial Interest Rate" then some 0.03
  else if key = "Volatility" then some 0.01
  else if key = "Maturity Time" then some 12
  else none

/-- A scenario record missing the `Volatility` key. -/
def demo_input_missing_vol : String → Option ℝ := fun key =>
  if key = "Initial Interest Rate" then some 0.03 else none

/-- An all-zero shock matrix used to instantiate witnesses. -/
def demo_shocks : ℕ → ℕ → ℝ := fun _ _ => 0

end

/-- A solver-parameter record requesting 1024 simulations. -/
def demo_solver : String → Option ℕ := fun key =>
  if key = "NumberOfSimulations" then some 1024 else none

/-- Claim C1: for every scenario and every shock matrix the
control-variate adjustment cancels, so `bond_price` equals the
closed-form `vasicek_bond_price T r0 σ 0.1 0.03` rounded to 10 decimal
places, both from `monte_carlo_bond_price` and through `run`; the price
output is independent of the simulated paths. -/
theorem bond_price_eq_closed_form (shocks : ℕ → ℕ → ℝ) (T r0 σ : ℝ)
    (n : ℕ) (dt : ℝ) :
    (monte_carlo_bond_price shocks T r0 σ n dt).1
      = round10 (vasicek_bond_price T r0 σ 0.1 0.03)
    ∧ ∀ (input_data : String → Option ℝ) (sp : String → Option ℕ)
        (res : Result) (r0q σq mtq : ℝ),
        input_data ("Initial Interest Rate") = some r0q →
        input_data ("Volatility") = some σq →
        input_data ("Maturity Time") = some mtq →
        run shocks input_data (some sp) = Except.ok res →
        res.bond_price = round10 (vasicek_bond_price (mtq / 12) r0q σq 0.1 0.03) := by
  have hmc : ∀ (T0 r00 σ0 : ℝ) (n0 : ℕ) (dt0 : ℝ),
      (monte_carlo_bond_price shocks T0 r00 σ0 n0 dt0).1
        = round10 (vasicek_bond_price T0 r00 σ0 0.1 0.03) := by
    intro T0 r00 σ0 n0 dt0
    exact monte_carlo_fst shocks T0 r00 σ0 n0 dt0
  constructor
  · exact hmc T r0 σ n dt
  · intro input_data sp res r0q σq mtq h1 h2 h3 hrun
    cases h4 : next_power_of_2 ((sp ("NumberOfSimulations")).getD 10000) with
    | none =>
      simp only [run, h1, h2, h3, h4] at hrun
      exact Except.noConfusion hrun
    | some npow =>
      rw [run_ok_eq shocks input_data sp r0q σq mtq npow h1 h2 h3 h4] at hrun
      injection hrun with hres
      rw [← hres]
      exact hmc (mtq / 12) r0q σq npow 0.01

/-- Witness for C1: the spec's demo scenario (maturity 12 months,
1024 simulations, zero shock matrix). -/
theorem bond_price_eq_closed_form_witness :
    demo_input ("Initial Interest Rate") = some 0.03 ∧
    demo_input ("Volatility") = some 0.01 ∧
    demo_input ("Maturity Time") = some 12 ∧
    run demo_shocks demo_input (some demo_solver)
      = Except.ok
          { bond_price := (monte_carlo_bond_price demo_shocks ((12 : ℝ) / 12) 0.03 0.01 1024 0.01).1,
            variance := (monte_carlo_bond_price demo_shocks ((12 : ℝ) / 12) 0.03 0.01 1024 0.01).2 } ∧
    (monte_carlo_bond_price demo_shocks ((12 : ℝ) / 12) 0.03 0.01 1024 0.01).1
      = round10 (vasicek_bond_price ((12 : ℝ) / 12) 0.03 0.01 0.1 0.03) := by
  have h4 : next_power_of_2 ((demo_solver ("NumberOfSimulations")).getD 10000) = some 1024 := by
    show next_power_of_2 1024 = some 1024
    exact next_power_of_2_1024
  have hrun := run_ok_eq demo_shocks demo_input demo_solver 0.03 0.01 12 1024 rfl rfl rfl h4
  refine ⟨rfl, rfl, rfl, hrun, ?_⟩
  exact (bond_price_eq_closed_form demo_shocks ((12 : ℝ) / 12) 0.03 0.01 1024 0.01).2
    demo_input demo_solver _ 0.03 0.01 12 rfl rfl rfl hrun

/-- Claim C8: the `variance` output is the sample variance of the
terminal discount factors across paths (mean squared deviation from
their mean), rounded to 10 decimal places, and hence non-negative. -/
theorem variance_correct (shocks : ℕ → ℕ → ℝ) (T r0 σ : ℝ) (n : ℕ) (dt : ℝ) :
    (monte_carlo_bond_price shocks T r0 σ n dt).2
      = round10 (np_var n (fun p =>
          compute_discount_factors
            (simulate_short_rate_quasi_mc shocks T r0 σ n dt).1
            (simulate_short_rate_quasi_mc shocks T r0 σ n dt).2
            p (numSteps T dt - 1)))
    ∧ 0 ≤ (monte_carlo_bond_price shocks T r0 σ n dt).2 := by
  have hvar : (monte_carlo_bond_price shocks T r0 σ n dt).2
      = round10 (np_var n (fun p =>
          compute_discount_factors
            (simulate_short_rate_quasi_mc shocks T r0 σ n dt).1
            (simulate_short_rate_quasi_mc shocks T r0 σ n dt).2
            p (numSteps T dt - 1))) := rfl
  refine ⟨hvar, ?_⟩
  rw [hvar]
  exact round10_nonneg (np_var_nonneg n _)

/-- Claim C7: a scenario record missing one of the required keys makes
`run` propagate a lookup failure naming the absent key (the first one,
in access order) and produce no result record. -/
theorem run_missing_key (shocks : ℕ → ℕ → ℝ) (input_data : String → Option ℝ)
    (solver_params : Option (String → Option ℕ)) :
    (input_data ("Initial Interest Rate") = none →
      run shocks input_data solver_params
        = Except.error (RunError.keyError ("Initial Interest Rate")))
    ∧ (∀ a : ℝ, input_data ("Initial Interest Rate") = some a →
        input_data ("Volatility") = none →
        run shocks input_data solver_params
          = Except.error (RunError.keyError ("Volatility")))
    ∧ (∀ a b : ℝ, input_data ("Initial Interest Rate") = some a →
        input_data ("Volatility") = some b →
        input_data ("Maturity Time") = none →
        run shocks input_data solver_params
          = Except.error (RunError.keyError ("Maturity Time"))) := by
  refine ⟨?_, ?_, ?_⟩
  · intro h
    simp only [run, h]
  · intro a h1 h2
    simp only [run, h1, h2]
  · intro a b h1 h2 h3
    simp only [run, h1, h2, h3]

/-- Witness for C7: a record holding only the initial rate makes `run`
fail with the lookup error for `Volatility`. -/
theorem run_missing_key_witness :
    demo_input_missing_vol ("Initial Interest Rate") = some 0.03 ∧
    demo_input_missing_vol ("Volatility") = none ∧
    run demo_shocks demo_input_missing_vol none
      = Except.error (RunError.keyError ("Volatility")) :=
  ⟨rfl, rfl,
    (run_missing_key demo_shocks demo_input_missing_vol none).2.1 0.03 rfl rfl⟩

/-- Claim C9: `run` interprets `Maturity Time` as months and passes
`T = Maturity Time / 12` (years) to the simulation and pricer: its
entire output is `monte_carlo_bond_price` evaluated at `mt / 12`. -/
theorem run_maturity_in_months (shocks : ℕ → ℕ → ℝ)
    (input_data : String → Option ℝ) (sp : String → Option ℕ)
    (r0 σ mt : ℝ) (npow : ℕ)
    (h1 : input_data ("Initial Interest Rate") = some r0)
    (h2 : input_data ("Volatility") = some σ)
    (h3 : input_data ("Maturity Time") = some mt)
    (h4 : next_power_of_2 ((sp ("NumberOfSimulations")).getD 10000) = some npow) :
    run shocks input_data (some sp)
      = Except.ok
          { bond_price := (monte_carlo_bond_price shocks (mt / 12) r0 σ npow 0.01).1,
            variance := (monte_carlo_bond_price shocks (mt / 12) r0 σ npow 0.01).2 } :=
  run_ok_eq shocks input_data sp r0 σ mt npow h1 h2 h3 h4

/-- Witness for C9: the demo scenario with maturity 12 months runs the
pricer at T = 12 / 12 = 1 year. -/
theorem run_maturity_in_months_witness :
    demo_input ("Maturity Time") = some 12 ∧
    run demo_shocks demo_input (some demo_solver)
      = Except.ok
          { bond_price := (monte_carlo_bond_price demo_shocks ((12 : ℝ) / 12) 0.03 0.01 1024 0.01).1,
            variance := (monte_carlo_bond_price demo_shocks ((12 : ℝ) / 12) 0.03 0.01 1024 0.01).2 } := by
  have h4 : next_power_of_2 ((demo_solver ("NumberOfSimulations")).getD 10000) = some 1024 := by
    show next_power_of_2 1024 = some 1024
    exact next_power_of_2_1024
  exact ⟨rfl,
    run_maturity_in_months demo_shocks demo_input demo_solver 0.03 0.01 12 1024 rfl rfl rfl h4⟩

/-- Claim C10: with the solver-configuration record omitted
(`solver_params = none`, the declared default) `run` fails with the
attribute error from `None.get`, for every valid scenario and
independently of the simulation inputs; the documented default of 10000
simulations (normalized to 16384) is reached only when a record lacking
the `NumberOfSimulations` key is passed. -/
theorem run_none_solver_params (shocks : ℕ → ℕ → ℝ)
    (input_data : String → Option ℝ) (r0 σ mt : ℝ)
    (h1 : input_data ("Initial Interest Rate") = some r0)
    (h2 : input_data ("Volatility") = some σ)
    (h3 : input_data ("Maturity Time") = some mt) :
    run shocks input_data none = Except.error RunError.attributeError
    ∧ ∀ sp : String → Option ℕ, sp ("NumberOfSimulations") = none →
        run shocks input_data (some sp)
          = Except.ok
              { bond_price := (monte_carlo_bond_price shocks (mt / 12) r0 σ 16384 0.01).1,
                variance := (monte_carlo_bond_price shocks (mt / 12) r0 σ 16384 0.01).2 } := by
  constructor
  · simp only [run, h1, h2, h3]
  · intro sp hsp
    apply run_ok_eq shocks input_data sp r0 σ mt 16384 h1 h2 h3
    rw [hsp]
    exact next_power_of_2_10000

/-- Witness for C10: the demo scenario with `solver_params = none`
errors out; with an empty record it uses 16384 paths. -/
theorem run_none_solver_params_witness :
    run demo_shocks demo_input none = Except.error RunError.attributeError ∧
    run demo_shocks demo_input (some (fun _ => none))
      = Except.ok
          { bond_price := (monte_carlo_bond_price demo_shocks ((12 : ℝ) / 12) 0.03 0.01 16384 0.01).1,
            variance := (monte_carlo_bond_price demo_shocks ((12 : ℝ) / 12) 0.03 0.01 16384 0.01).2 } := by
  have h := run_none_solver_params demo_shocks demo_input 0.03 0.01 12 rfl rfl rfl
  exact ⟨h.1, h.2 (fun _ => none) rfl⟩
